import Mathlib

/-!
Verification development for the SINMAM heart-rate dashboard front end
(`src/App.tsx`). The file shallowly embeds the polling / refresh /
classification core of the component: the JSON values produced by
`response.json()`, the four `useState` slices, the two fetch functions
`fetchHeartRateStats` and `fetchHeartRateReadings`, the per-cycle driver
`fetchData`, and the pure classification helpers `getRiskLevel`,
`getRiskColor`, `getRiskBadgeColor`, `getStatCardColor` together with the
inline threshold expressions of the JSX.

Asynchrony is modelled by passing each fetch an explicit outcome event
(network fault, HTTP response with a status flag, JSON parse result) and a
boolean recording which of the two concurrently running fetches commits
first. React state setters are embedded as functions on a component value
that carries a `mounted` flag: per the React runtime, a state update
dispatched to an unmounted component is discarded, which is the stale
update guard relied upon at teardown.
-/

namespace SINMAM

/-- Shallow embedding of a parsed JSON value, as produced by
`response.json()`. Numbers are modelled as integers, matching the integer
BPM values of the documented API contract. -/
inductive JsonVal where
  | jnull : JsonVal
  | jbool : Bool → JsonVal
  | jnum : Int → JsonVal
  | jstr : String → JsonVal
  | jarr : List JsonVal → JsonVal
  | jobj : List (String × JsonVal) → JsonVal

/-- Embedding of the `HeartRateReading` interface of `src/App.tsx` (lines 4-10). -/
structure HeartRateReading where
  id : Int
  hour : String
  pulse : Int
  isRisky : Bool
  timestamp : String

/-- Embedding of the `HeartRateStats` interface of `src/App.tsx` (lines 12-18). -/
structure HeartRateStats where
  last5Minutes : Int
  last15Minutes : Int
  last30Minutes : Int
  current : Int
  lastUpdated : String

/-- The four `useState` slices of the `App` component. The `stats` and
`readings` slots hold raw JSON values: the TypeScript code commits
`response.json()` results to them without any runtime shape check, so the
slots can in fact hold arbitrary JSON. -/
structure AppState where
  stats : JsonVal
  readings : JsonVal
  loading : Bool
  error : Option String

/-- A component instance: its React state together with a `mounted` flag.
The flag embeds the React runtime rule that a state update dispatched
after unmount is discarded. -/
structure Component where
  mounted : Bool
  state : AppState

/-- Embedding of the `setStats` state setter: applied only while the
component is mounted, discarded otherwise (React runtime behaviour). -/
def setStats (v : JsonVal) (c : Component) : Component :=
  if c.mounted then { c with state := { c.state with stats := v } } else c

/-- Embedding of the `setReadings` state setter. -/
def setReadings (v : JsonVal) (c : Component) : Component :=
  if c.mounted then { c with state := { c.state with readings := v } } else c

/-- Embedding of the `setLoading` state setter. -/
def setLoading (b : Bool) (c : Component) : Component :=
  if c.mounted then { c with state := { c.state with loading := b } } else c

/-- Embedding of the `setError` state setter. -/
def setError (e : Option String) (c : Component) : Component :=
  if c.mounted then { c with state := { c.state with error := e } } else c

/-- The outcome of one `fetch` call as observed by the code:
either the fetch promise itself rejects (network fault; the payload is the
`message` of the thrown value when it is an `Error` instance, `none`
otherwise), or a response arrives carrying its `ok` flag and the result of
`response.json()` (`Except.error` when the body is not valid JSON, again
with the optional thrown message). -/
inductive FetchEvent where
  | networkFault : Option String → FetchEvent
  | response : Bool → Except (Option String) JsonVal → FetchEvent

/-- Embedding of the catch-clause expression of `src/App.tsx` lines 50 and
63: the message of the thrown value when it is an `Error` instance, and the
fixed fallback text otherwise. -/
def caughtMessage : Option String → String
  | some m => m
  | none => "Error desconocido"

/-- Embedding of `fetchHeartRateStats` (`src/App.tsx` lines 41-52): on a
non-ok response it throws and catches a fixed Spanish message, on a JSON
parse fault or network fault it catches the thrown message, and otherwise
it commits the parsed body wholesale via `setStats`. -/
def fetchHeartRateStats (ev : FetchEvent) (c : Component) : Component :=
  match ev with
  | .networkFault m => setError (some (caughtMessage m)) c
  | .response ok body =>
    if ok then
      match body with
      | .error m => setError (some (caughtMessage m)) c
      | .ok data => setStats data c
    else
      setError (some "Error al obtener estadísticas") c

/-- Embedding of `fetchHeartRateReadings` (`src/App.tsx` lines 54-65),
identical in structure to the stats fetch but committing via
`setReadings` and using its own fixed failure message. -/
def fetchHeartRateReadings (ev : FetchEvent) (c : Component) : Component :=
  match ev with
  | .networkFault m => setError (some (caughtMessage m)) c
  | .response ok body =>
    if ok then
      match body with
      | .error m => setError (some (caughtMessage m)) c
      | .ok data => setReadings data c
    else
      setError (some "Error al obtener lecturas") c

/-- Embedding of `fetchData` (`src/App.tsx` lines 67-77): set loading,
clear the error, run both fetches concurrently (the boolean `statsFirst`
records which one commits first), then clear loading in the `finally`
block. Both inner fetches catch all of their own faults, so the
surrounding try-catch never fires and the function is total. -/
def fetchData (evStats evReadings : FetchEvent) (statsFirst : Bool) (c : Component) : Component :=
  setLoading false
    (if statsFirst then
      fetchHeartRateReadings evReadings (fetchHeartRateStats evStats (setError none (setLoading true c)))
    else
      fetchHeartRateStats evStats (fetchHeartRateReadings evReadings (setError none (setLoading true c))))

/-- Embedding of `getRiskLevel` (`src/App.tsx` lines 93-97). -/
def getRiskLevel (pulse : Int) : String :=
  if pulse > 100 then "high"
  else if pulse < 60 then "low"
  else "normal"

/-- Embedding of `getRiskColor` (`src/App.tsx` lines 99-106): a switch on
the result of `getRiskLevel`. -/
def getRiskColor (pulse : Int) : String :=
  if getRiskLevel pulse = "high" then "text-red-600"
  else if getRiskLevel pulse = "low" then "text-blue-600"
  else "text-green-600"

/-- Embedding of `getRiskBadgeColor` (`src/App.tsx` lines 108-112). -/
def getRiskBadgeColor (isRisky : Bool) : String :=
  if isRisky then "bg-red-100 text-red-800 border-red-200"
  else "bg-green-100 text-green-800 border-green-200"

/-- Embedding of `getStatCardColor` (`src/App.tsx` lines 114-118), which
repeats the threshold comparisons inline instead of calling `getRiskLevel`. -/
def getStatCardColor (value : Int) : String :=
  if value > 100 then "border-red-200 bg-red-50"
  else if value < 60 then "border-blue-200 bg-blue-50"
  else "border-green-200 bg-green-50"

/-- Embedding of the inline hero-section category label
(`src/App.tsx` line 193). -/
def heroStatusLabel (current : Int) : String :=
  if current > 100 then "Elevado"
  else if current < 60 then "Bajo"
  else "Normal"

/-- Embedding of the inline hero-section badge class expression
(`src/App.tsx` lines 189-191). -/
def heroStatusClass (current : Int) : String :=
  if current > 100 then "bg-red-100 text-red-800"
  else if current < 60 then "bg-blue-100 text-blue-800"
  else "bg-green-100 text-green-800"

/-- Embedding of the inline table category label (`src/App.tsx` line 317). -/
def tableStatusLabel (pulse : Int) : String :=
  if pulse > 100 then "Elevado"
  else if pulse < 60 then "Bajo"
  else "Normal"

/-- Embedding of the inline table status class expression
(`src/App.tsx` lines 313-315). -/
def tableStatusClass (pulse : Int) : String :=
  if pulse > 100 then "bg-red-100 text-red-800"
  else if pulse < 60 then "bg-blue-100 text-blue-800"
  else "bg-green-100 text-green-800"

/-- Embedding of the risky-badge text (`src/App.tsx` line 324). -/
def riskyBadgeText (isRisky : Bool) : String :=
  if isRisky then "Sí" else "No"

/-- Embedding of the `useState` initialiser for `stats`
(`src/App.tsx` lines 24-34); `constructedAt` stands for the
`toLocaleTimeString` result taken at construction time. -/
def initialStats (constructedAt : String) : JsonVal :=
  .jobj [("last5Minutes", .jnum 0), ("last15Minutes", .jnum 0),
         ("last30Minutes", .jnum 0), ("current", .jnum 0),
         ("lastUpdated", .jstr constructedAt)]

/-- The initial values of the four state slices
(`src/App.tsx` lines 24-38). -/
def initialState (constructedAt : String) : AppState :=
  { stats := initialStats constructedAt
    readings := .jarr []
    loading := true
    error := none }

/-- Field lookup in a JSON object body, first binding wins. -/
def lookupField : List (String × JsonVal) → String → Option JsonVal
  | [], _ => none
  | (k, v) :: rest, key => if k = key then some v else lookupField rest key

/-- Field lookup through a `JsonVal` that may or may not be an object. -/
def objField (v : JsonVal) (key : String) : Option JsonVal :=
  match v with
  | .jobj fields => lookupField fields key
  | _ => none

/-- Whether a field is present with an integer value. -/
def hasIntField (fields : List (String × JsonVal)) (key : String) : Bool :=
  match lookupField fields key with
  | some (.jnum _) => true
  | _ => false

/-- Whether a field is present with a string value. -/
def hasStrField (fields : List (String × JsonVal)) (key : String) : Bool :=
  match lookupField fields key with
  | some (.jstr _) => true
  | _ => false

/-- Whether a field is present with a boolean value. -/
def hasBoolField (fields : List (String × JsonVal)) (key : String) : Bool :=
  match lookupField fields key with
  | some (.jbool _) => true
  | _ => false

/-- The documented shape of the stats response body
(API_FORMAT, stats endpoint): an object with four integer fields and the
`lastUpdated` string. The TypeScript code never evaluates such a check;
the predicate only states the documented contract. -/
def isStatsShape (v : JsonVal) : Bool :=
  match v with
  | .jobj fields =>
    hasIntField fields "last5Minutes" && hasIntField fields "last15Minutes" &&
    hasIntField fields "last30Minutes" && hasIntField fields "current" &&
    hasStrField fields "lastUpdated"
  | _ => false

/-- The documented shape of one element of the readings response body. -/
def isReadingShape (v : JsonVal) : Bool :=
  match v with
  | .jobj fields =>
    hasIntField fields "id" && hasStrField fields "hour" &&
    hasIntField fields "pulse" && hasBoolField fields "isRisky" &&
    hasStrField fields "timestamp"
  | _ => false

/-- The documented shape of the readings response body: an array of
reading records. -/
def isReadingsShape (v : JsonVal) : Bool :=
  match v with
  | .jarr xs => xs.all isReadingShape
  | _ => false

/-- Whether a fetch outcome is a failure for the code: a network fault, a
non-ok status, or a JSON parse fault. A response with `ok` status and a
JSON body of any shape is a success for the code. -/
def fetchFails : FetchEvent → Bool
  | .networkFault _ => true
  | .response ok body =>
    !ok ||
      (match body with
       | .error _ => true
       | .ok _ => false)

/-- Whether the thrown message carried by a fault event, if any, is
non-empty. Browser-thrown `TypeError` and `SyntaxError` values carry
non-empty messages, so this records an assumption about the environment,
not about the code. -/
def evMsgNonempty : FetchEvent → Bool
  | .networkFault (some m) => decide (m ≠ "")
  | .response _ (.error (some m)) => decide (m ≠ "")
  | _ => true

/-! Helper lemmas about the state setters and the two fetch steps. -/

theorem setStats_mounted (v : JsonVal) (c : Component) :
    (setStats v c).mounted = c.mounted := by
  unfold setStats; split <;> rfl

theorem setReadings_mounted (v : JsonVal) (c : Component) :
    (setReadings v c).mounted = c.mounted := by
  unfold setReadings; split <;> rfl

theorem setLoading_mounted (b : Bool) (c : Component) :
    (setLoading b c).mounted = c.mounted := by
  unfold setLoading; split <;> rfl

theorem setError_mounted (e : Option String) (c : Component) :
    (setError e c).mounted = c.mounted := by
  unfold setError; split <;> rfl

theorem setLoading_stats (b : Bool) (c : Component) :
    (setLoading b c).state.stats = c.state.stats := by
  unfold setLoading; split <;> rfl

theorem setLoading_readings (b : Bool) (c : Component) :
    (setLoading b c).state.readings = c.state.readings := by
  unfold setLoading; split <;> rfl

theorem setLoading_error (b : Bool) (c : Component) :
    (setLoading b c).state.error = c.state.error := by
  unfold setLoading; split <;> rfl

theorem fetchHeartRateStats_mounted (ev : FetchEvent) (c : Component) :
    (fetchHeartRateStats ev c).mounted = c.mounted := by
  unfold fetchHeartRateStats
  cases ev with
  | networkFault m => exact setError_mounted _ _
  | response ok body =>
    cases ok with
    | false => exact setError_mounted _ _
    | true =>
      cases body with
      | error m => exact setError_mounted _ _
      | ok data => exact setStats_mounted _ _

theorem fetchHeartRateReadings_mounted (ev : FetchEvent) (c : Component) :
    (fetchHeartRateReadings ev c).mounted = c.mounted := by
  unfold fetchHeartRateReadings
  cases ev with
  | networkFault m => exact setError_mounted _ _
  | response ok body =>
    cases ok with
    | false => exact setError_mounted _ _
    | true =>
      cases body with
      | error m => exact setError_mounted _ _
      | ok data => exact setReadings_mounted _ _

theorem setError_stats (e : Option String) (c : Component) :
    (setError e c).state.stats = c.state.stats := by
  unfold setError; split <;> rfl

theorem setError_readings (e : Option String) (c : Component) :
    (setError e c).state.readings = c.state.readings := by
  unfold setError; split <;> rfl

theorem setError_loading (e : Option String) (c : Component) :
    (setError e c).state.loading = c.state.loading := by
  unfold setError; split <;> rfl

theorem setStats_readings (v : JsonVal) (c : Component) :
    (setStats v c).state.readings = c.state.readings := by
  unfold setStats; split <;> rfl

theorem setStats_error (v : JsonVal) (c : Component) :
    (setStats v c).state.error = c.state.error := by
  unfold setStats; split <;> rfl

theorem setReadings_stats (v : JsonVal) (c : Component) :
    (setReadings v c).state.stats = c.state.stats := by
  unfold setReadings; split <;> rfl

theorem setReadings_error (v : JsonVal) (c : Component) :
    (setReadings v c).state.error = c.state.error := by
  unfold setReadings; split <;> rfl

theorem setStats_apply (v : JsonVal) (c : Component) (hc : c.mounted = true) :
    (setStats v c).state.stats = v := by
  simp [setStats, hc]

theorem setReadings_apply (v : JsonVal) (c : Component) (hc : c.mounted = true) :
    (setReadings v c).state.readings = v := by
  simp [setReadings, hc]

theorem setError_apply (e : Option String) (c : Component) (hc : c.mounted = true) :
    (setError e c).state.error = e := by
  simp [setError, hc]

theorem setLoading_apply (b : Bool) (c : Component) (hc : c.mounted = true) :
    (setLoading b c).state.loading = b := by
  simp [setLoading, hc]

theorem fetchHeartRateStats_readings (ev : FetchEvent) (c : Component) :
    (fetchHeartRateStats ev c).state.readings = c.state.readings := by
  cases ev with
  | networkFault m => exact setError_readings _ _
  | response ok body =>
    cases ok with
    | false => exact setError_readings _ _
    | true =>
      cases body with
      | error m => exact setError_readings _ _
      | ok data => exact setStats_readings _ _

theorem fetchHeartRateReadings_stats (ev : FetchEvent) (c : Component) :
    (fetchHeartRateReadings ev c).state.stats = c.state.stats := by
  cases ev with
  | networkFault m => exact setError_stats _ _
  | response ok body =>
    cases ok with
    | false => exact setError_stats _ _
    | true =>
      cases body with
      | error m => exact setError_stats _ _
      | ok data => exact setReadings_stats _ _

theorem fetchHeartRateStats_success_error (v : JsonVal) (c : Component) :
    (fetchHeartRateStats (.response true (.ok v)) c).state.error = c.state.error :=
  setStats_error v c

theorem fetchHeartRateReadings_success_error (v : JsonVal) (c : Component) :
    (fetchHeartRateReadings (.response true (.ok v)) c).state.error = c.state.error :=
  setReadings_error v c

theorem fetchHeartRateStats_fail_stats (ev : FetchEvent) (c : Component)
    (hf : fetchFails ev = true) :
    (fetchHeartRateStats ev c).state.stats = c.state.stats := by
  cases ev with
  | networkFault m => exact setError_stats _ _
  | response ok body =>
    cases ok with
    | false => exact setError_stats _ _
    | true =>
      cases body with
      | error m => exact setError_stats _ _
      | ok v => simp [fetchFails] at hf

theorem fetchHeartRateReadings_fail_readings (ev : FetchEvent) (c : Component)
    (hf : fetchFails ev = true) :
    (fetchHeartRateReadings ev c).state.readings = c.state.readings := by
  cases ev with
  | networkFault m => exact setError_readings _ _
  | response ok body =>
    cases ok with
    | false => exact setError_readings _ _
    | true =>
      cases body with
      | error m => exact setError_readings _ _
      | ok v => simp [fetchFails] at hf

theorem fetchHeartRateStats_fail_error (ev : FetchEvent) (c : Component)
    (hf : fetchFails ev = true) (hm : evMsgNonempty ev = true) (hc : c.mounted = true) :
    ∃ m, (fetchHeartRateStats ev c).state.error = some m ∧ m ≠ "" := by
  cases ev with
  | networkFault m =>
    cases m with
    | none => exact ⟨"Error desconocido", setError_apply _ _ hc, by decide⟩
    | some msg =>
      refine ⟨msg, setError_apply _ _ hc, ?_⟩
      simpa [evMsgNonempty] using hm
  | response ok body =>
    cases ok with
    | false => exact ⟨"Error al obtener estadísticas", setError_apply _ _ hc, by decide⟩
    | true =>
      cases body with
      | error m =>
        cases m with
        | none => exact ⟨"Error desconocido", setError_apply _ _ hc, by decide⟩
        | some msg =>
          refine ⟨msg, setError_apply _ _ hc, ?_⟩
          simpa [evMsgNonempty] using hm
      | ok v => simp [fetchFails] at hf

theorem fetchHeartRateReadings_fail_error (ev : FetchEvent) (c : Component)
    (hf : fetchFails ev = true) (hm : evMsgNonempty ev = true) (hc : c.mounted = true) :
    ∃ m, (fetchHeartRateReadings ev c).state.error = some m ∧ m ≠ "" := by
  cases ev with
  | networkFault m =>
    cases m with
    | none => exact ⟨"Error desconocido", setError_apply _ _ hc, by decide⟩
    | some msg =>
      refine ⟨msg, setError_apply _ _ hc, ?_⟩
      simpa [evMsgNonempty] using hm
  | response ok body =>
    cases ok with
    | false => exact ⟨"Error al obtener lecturas", setError_apply _ _ hc, by decide⟩
    | true =>
      cases body with
      | error m =>
        cases m with
        | none => exact ⟨"Error desconocido", setError_apply _ _ hc, by decide⟩
        | some msg =>
          refine ⟨msg, setError_apply _ _ hc, ?_⟩
          simpa [evMsgNonempty] using hm
      | ok v => simp [fetchFails] at hf

theorem fetchFails_false (ev : FetchEvent) (hf : fetchFails ev = false) :
    ∃ v, ev = .response true (.ok v) := by
  cases ev with
  | networkFault m => simp [fetchFails] at hf
  | response ok body =>
    cases ok with
    | false => simp [fetchFails] at hf
    | true =>
      cases body with
      | error m => simp [fetchFails] at hf
      | ok v => exact ⟨v, rfl⟩

theorem fetchHeartRateStats_unmounted (ev : FetchEvent) (s : AppState) :
    fetchHeartRateStats ev ⟨false, s⟩ = ⟨false, s⟩ := by
  cases ev with
  | networkFault m => rfl
  | response ok body =>
    cases ok with
    | false => rfl
    | true =>
      cases body with
      | error m => rfl
      | ok v => rfl

theorem fetchHeartRateReadings_unmounted (ev : FetchEvent) (s : AppState) :
    fetchHeartRateReadings ev ⟨false, s⟩ = ⟨false, s⟩ := by
  cases ev with
  | networkFault m => rfl
  | response ok body =>
    cases ok with
    | false => rfl
    | true =>
      cases body with
      | error m => rfl
      | ok v => rfl

/-! Claim theorems. -/

/-- Claim C1: for every integer pulse value `p`, `getRiskLevel` returns
`high` iff `p > 100`, `low` iff `p < 60`, and `normal` iff
`60 ≤ p ≤ 100`; in particular the classification of 60 and 100 is
`normal`, of 101 is `high`, and of 59 is `low`. -/
theorem claim_C1_riskLevel_thresholds (p : Int) :
    (getRiskLevel p = "high" ↔ 100 < p) ∧
    (getRiskLevel p = "low" ↔ p < 60) ∧
    (getRiskLevel p = "normal" ↔ 60 ≤ p ∧ p ≤ 100) ∧
    getRiskLevel 60 = "normal" ∧ getRiskLevel 100 = "normal" ∧
    getRiskLevel 101 = "high" ∧ getRiskLevel 59 = "low" := by
  refine ⟨?_, ?_, ?_, by decide, by decide, by decide, by decide⟩ <;>
    (unfold getRiskLevel; split_ifs with h1 h2 <;> simp <;> omega)

/-- Claim C8: the locally derived risk classification and its derived
colour and category label depend only on the pulse value, never on the
server supplied `isRisky` flag, while the risky badge depends only on
that flag. -/
theorem claim_C8_isRisky_noninterference :
    (∀ r1 r2 : HeartRateReading, r1.pulse = r2.pulse →
      getRiskLevel r1.pulse = getRiskLevel r2.pulse ∧
      getRiskColor r1.pulse = getRiskColor r2.pulse ∧
      tableStatusLabel r1.pulse = tableStatusLabel r2.pulse ∧
      tableStatusClass r1.pulse = tableStatusClass r2.pulse) ∧
    (∀ r1 r2 : HeartRateReading, r1.isRisky = r2.isRisky →
      getRiskBadgeColor r1.isRisky = getRiskBadgeColor r2.isRisky ∧
      riskyBadgeText r1.isRisky = riskyBadgeText r2.isRisky) := by
  constructor
  · intro r1 r2 hp
    rw [hp]
    exact ⟨rfl, rfl, rfl, rfl⟩
  · intro r1 r2 hb
    rw [hb]
    exact ⟨rfl, rfl⟩

/-- Witness for claim C8: two readings with pulse 150 and opposite
`isRisky` flags classify identically, and two readings with the same flag
get the same badge. -/
theorem claim_C8_witness :
    (getRiskLevel (HeartRateReading.pulse ⟨1, "14:30", 150, true, "2025-01-11T14:30:00Z"⟩) =
      getRiskLevel (HeartRateReading.pulse ⟨2, "14:15", 150, false, "2025-01-11T14:15:00Z"⟩) ∧
     getRiskColor (HeartRateReading.pulse ⟨1, "14:30", 150, true, "2025-01-11T14:30:00Z"⟩) =
      getRiskColor (HeartRateReading.pulse ⟨2, "14:15", 150, false, "2025-01-11T14:15:00Z"⟩) ∧
     tableStatusLabel (HeartRateReading.pulse ⟨1, "14:30", 150, true, "2025-01-11T14:30:00Z"⟩) =
      tableStatusLabel (HeartRateReading.pulse ⟨2, "14:15", 150, false, "2025-01-11T14:15:00Z"⟩) ∧
     tableStatusClass (HeartRateReading.pulse ⟨1, "14:30", 150, true, "2025-01-11T14:30:00Z"⟩) =
      tableStatusClass (HeartRateReading.pulse ⟨2, "14:15", 150, false, "2025-01-11T14:15:00Z"⟩)) ∧
    (getRiskBadgeColor (HeartRateReading.isRisky ⟨1, "14:30", 150, true, "2025-01-11T14:30:00Z"⟩) =
      getRiskBadgeColor (HeartRateReading.isRisky ⟨3, "14:00", 55, true, "2025-01-11T14:00:00Z"⟩) ∧
     riskyBadgeText (HeartRateReading.isRisky ⟨1, "14:30", 150, true, "2025-01-11T14:30:00Z"⟩) =
      riskyBadgeText (HeartRateReading.isRisky ⟨3, "14:00", 55, true, "2025-01-11T14:00:00Z"⟩)) := by
  exact ⟨claim_C8_isRisky_noninterference.1 _ _ rfl,
         claim_C8_isRisky_noninterference.2 _ _ rfl⟩

/-- Claim C9: the threshold logic duplicated inline in the hero section,
in the table, and in `getStatCardColor` picks exactly the same category as
`getRiskLevel`, and `getRiskColor` selects its colour by exactly the
result of `getRiskLevel`. -/
theorem claim_C9_inline_threshold_agreement (v : Int) :
    (heroStatusLabel v = "Elevado" ↔ getRiskLevel v = "high") ∧
    (heroStatusLabel v = "Bajo" ↔ getRiskLevel v = "low") ∧
    (heroStatusLabel v = "Normal" ↔ getRiskLevel v = "normal") ∧
    tableStatusLabel v = heroStatusLabel v ∧
    tableStatusClass v = heroStatusClass v ∧
    (heroStatusClass v = "bg-red-100 text-red-800" ↔ getRiskLevel v = "high") ∧
    (heroStatusClass v = "bg-blue-100 text-blue-800" ↔ getRiskLevel v = "low") ∧
    (heroStatusClass v = "bg-green-100 text-green-800" ↔ getRiskLevel v = "normal") ∧
    (getStatCardColor v = "border-red-200 bg-red-50" ↔ getRiskLevel v = "high") ∧
    (getStatCardColor v = "border-blue-200 bg-blue-50" ↔ getRiskLevel v = "low") ∧
    (getStatCardColor v = "border-green-200 bg-green-50" ↔ getRiskLevel v = "normal") ∧
    getRiskColor v = (if getRiskLevel v = "high" then "text-red-600"
      else if getRiskLevel v = "low" then "text-blue-600" else "text-green-600") := by
  unfold heroStatusLabel tableStatusLabel heroStatusClass tableStatusClass
    getStatCardColor getRiskColor getRiskLevel
  split_ifs <;> simp_all

/-- Claim C10: before the first cycle commits anything, the initial state
has all four numeric stats fields equal to 0, `lastUpdated` set to the
construction time string, an empty readings array, loading true and no
error; and the initial current value 0 classifies as `low`. -/
theorem claim_C10_initial_state (constructedAt : String) :
    objField (initialState constructedAt).stats "last5Minutes" = some (.jnum 0) ∧
    objField (initialState constructedAt).stats "last15Minutes" = some (.jnum 0) ∧
    objField (initialState constructedAt).stats "last30Minutes" = some (.jnum 0) ∧
    objField (initialState constructedAt).stats "current" = some (.jnum 0) ∧
    objField (initialState constructedAt).stats "lastUpdated" = some (.jstr constructedAt) ∧
    (initialState constructedAt).readings = .jarr [] ∧
    (initialState constructedAt).loading = true ∧
    (initialState constructedAt).error = none ∧
    getRiskLevel 0 = "low" := by
  refine ⟨?_, ?_, ?_, ?_, ?_, rfl, rfl, rfl, by decide⟩ <;> rfl

/-- Claim C2: when both fetches succeed, the committed stats slice is
exactly the parsed stats body and the committed readings slice is exactly
the parsed readings array, whichever of the two concurrent fetches commits
first, with no merging with or retention of the previous values and no
re-sorting (the committed value is the received JSON value itself). -/
theorem claim_C2_commit_wholesale (bodyS bodyR : JsonVal) (statsFirst : Bool) (s : AppState) :
    (fetchData (.response true (.ok bodyS)) (.response true (.ok bodyR)) statsFirst
      ⟨true, s⟩).state.stats = bodyS ∧
    (fetchData (.response true (.ok bodyS)) (.response true (.ok bodyR)) statsFirst
      ⟨true, s⟩).state.readings = bodyR ∧
    (fetchData (.response true (.ok bodyS)) (.response true (.ok bodyR)) statsFirst
      ⟨true, s⟩).state.error = none := by
  cases statsFirst <;> exact ⟨rfl, rfl, rfl⟩

/-- Claim C4: after teardown the component is unmounted, and a whole cycle
run by a fetch that was already in flight leaves the component exactly as
it was: every state setter dispatched after unmount is discarded by the
React runtime, so neither the two data slices nor the loading and error
flags change, and no fault is thrown (the embedded step is a total
function). -/
theorem claim_C4_teardown_noop (evStats evReadings : FetchEvent) (statsFirst : Bool) (s : AppState) :
    fetchData evStats evReadings statsFirst ⟨false, s⟩ = ⟨false, s⟩ := by
  have hbase : setError none (setLoading true (⟨false, s⟩ : Component)) = ⟨false, s⟩ := rfl
  have hfin : setLoading false (⟨false, s⟩ : Component) = ⟨false, s⟩ := rfl
  cases statsFirst with
  | true =>
    show setLoading false (fetchHeartRateReadings evReadings (fetchHeartRateStats evStats
      (setError none (setLoading true ⟨false, s⟩)))) = ⟨false, s⟩
    rw [hbase, fetchHeartRateStats_unmounted, fetchHeartRateReadings_unmounted, hfin]
  | false =>
    show setLoading false (fetchHeartRateStats evStats (fetchHeartRateReadings evReadings
      (setError none (setLoading true ⟨false, s⟩)))) = ⟨false, s⟩
    rw [hbase, fetchHeartRateReadings_unmounted, fetchHeartRateStats_unmounted, hfin]

/-- Claim C6: every cycle terminates with the loading flag cleared,
whatever the outcome of the two fetches, and the controller survives the
cycle (the embedded cycle is a total function, mirroring that both inner
fetches catch all of their own faults, so nothing escapes `fetchData`). -/
theorem claim_C6_cycle_completes (evStats evReadings : FetchEvent) (statsFirst : Bool) (s : AppState) :
    (fetchData evStats evReadings statsFirst ⟨true, s⟩).state.loading = false ∧
    (fetchData evStats evReadings statsFirst ⟨true, s⟩).mounted = true := by
  have hm : (if statsFirst then
        fetchHeartRateReadings evReadings (fetchHeartRateStats evStats
          (setError none (setLoading true (⟨true, s⟩ : Component))))
      else
        fetchHeartRateStats evStats (fetchHeartRateReadings evReadings
          (setError none (setLoading true (⟨true, s⟩ : Component))))).mounted = true := by
    cases statsFirst with
    | true =>
      show (fetchHeartRateReadings evReadings (fetchHeartRateStats evStats
        (setError none (setLoading true (⟨true, s⟩ : Component))))).mounted = true
      rw [fetchHeartRateReadings_mounted, fetchHeartRateStats_mounted]
      rfl
    | false =>
      show (fetchHeartRateStats evStats (fetchHeartRateReadings evReadings
        (setError none (setLoading true (⟨true, s⟩ : Component))))).mounted = true
      rw [fetchHeartRateStats_mounted, fetchHeartRateReadings_mounted]
      rfl
  exact ⟨setLoading_apply false _ hm, (setLoading_mounted false _).trans hm⟩

/-- Claim C7: running the cycle twice with identical successful responses
commits exactly the state of the first run: nothing is appended and
nothing accumulates across cycles. -/
theorem claim_C7_cycle_idempotent (bodyS bodyR : JsonVal) (statsFirst : Bool) (s : AppState) :
    fetchData (.response true (.ok bodyS)) (.response true (.ok bodyR)) statsFirst
      (fetchData (.response true (.ok bodyS)) (.response true (.ok bodyR)) statsFirst ⟨true, s⟩) =
    fetchData (.response true (.ok bodyS)) (.response true (.ok bodyR)) statsFirst ⟨true, s⟩ := by
  cases statsFirst <;> rfl

/-- Claim C3: in every cycle, each state slice changes only if its own
fetch succeeded, a failed fetch leaves its slice at the last value, and
when at least one fetch fails the cycle ends with the error slot holding a
non-empty message. The non-emptiness of messages carried by thrown browser
exceptions is recorded as the `evMsgNonempty` environment assumption. -/
theorem claim_C3_failure_isolation (evStats evReadings : FetchEvent) (statsFirst : Bool) (s : AppState) :
    (fetchFails evStats = true →
      (fetchData evStats evReadings statsFirst ⟨true, s⟩).state.stats = s.stats) ∧
    (fetchFails evReadings = true →
      (fetchData evStats evReadings statsFirst ⟨true, s⟩).state.readings = s.readings) ∧
    ((fetchFails evStats || fetchFails evReadings) = true →
      evMsgNonempty evStats = true → evMsgNonempty evReadings = true →
      ∃ m, (fetchData evStats evReadings statsFirst ⟨true, s⟩).state.error = some m ∧ m ≠ "") := by
  refine ⟨?_, ?_, ?_⟩
  · intro hfS
    cases statsFirst with
    | true =>
      show (setLoading false (fetchHeartRateReadings evReadings (fetchHeartRateStats evStats
        (setError none (setLoading true ⟨true, s⟩))))).state.stats = s.stats
      rw [setLoading_stats, fetchHeartRateReadings_stats, fetchHeartRateStats_fail_stats _ _ hfS]
      rfl
    | false =>
      show (setLoading false (fetchHeartRateStats evStats (fetchHeartRateReadings evReadings
        (setError none (setLoading true ⟨true, s⟩))))).state.stats = s.stats
      rw [setLoading_stats, fetchHeartRateStats_fail_stats _ _ hfS, fetchHeartRateReadings_stats]
      rfl
  · intro hfR
    cases statsFirst with
    | true =>
      show (setLoading false (fetchHeartRateReadings evReadings (fetchHeartRateStats evStats
        (setError none (setLoading true ⟨true, s⟩))))).state.readings = s.readings
      rw [setLoading_readings, fetchHeartRateReadings_fail_readings _ _ hfR,
        fetchHeartRateStats_readings]
      rfl
    | false =>
      show (setLoading false (fetchHeartRateStats evStats (fetchHeartRateReadings evReadings
        (setError none (setLoading true ⟨true, s⟩))))).state.readings = s.readings
      rw [setLoading_readings, fetchHeartRateStats_readings,
        fetchHeartRateReadings_fail_readings _ _ hfR]
      rfl
  · intro hor hmS hmR
    cases statsFirst with
    | true =>
      show ∃ m, (setLoading false (fetchHeartRateReadings evReadings (fetchHeartRateStats evStats
        (setError none (setLoading true ⟨true, s⟩))))).state.error = some m ∧ m ≠ ""
      by_cases hfR : fetchFails evReadings = true
      · obtain ⟨m, hme, hne⟩ := fetchHeartRateReadings_fail_error evReadings
          (fetchHeartRateStats evStats (setError none (setLoading true ⟨true, s⟩))) hfR hmR
          ((fetchHeartRateStats_mounted _ _).trans rfl)
        refine ⟨m, ?_, hne⟩
        rw [setLoading_error]
        exact hme
      · have hfR2 : fetchFails evReadings = false := by
          cases h : fetchFails evReadings with
          | false => rfl
          | true => exact absurd h hfR
        obtain ⟨v, hv⟩ := fetchFails_false _ hfR2
        subst hv
        have hfS : fetchFails evStats = true := by
          simpa [fetchFails] using hor
        obtain ⟨m, hme, hne⟩ := fetchHeartRateStats_fail_error evStats
          (setError none (setLoading true ⟨true, s⟩)) hfS hmS rfl
        refine ⟨m, ?_, hne⟩
        rw [setLoading_error, fetchHeartRateReadings_success_error]
        exact hme
    | false =>
      show ∃ m, (setLoading false (fetchHeartRateStats evStats (fetchHeartRateReadings evReadings
        (setError none (setLoading true ⟨true, s⟩))))).state.error = some m ∧ m ≠ ""
      by_cases hfS : fetchFails evStats = true
      · obtain ⟨m, hme, hne⟩ := fetchHeartRateStats_fail_error evStats
          (fetchHeartRateReadings evReadings (setError none (setLoading true ⟨true, s⟩))) hfS hmS
          ((fetchHeartRateReadings_mounted _ _).trans rfl)
        refine ⟨m, ?_, hne⟩
        rw [setLoading_error]
        exact hme
      · have hfS2 : fetchFails evStats = false := by
          cases h : fetchFails evStats with
          | false => rfl
          | true => exact absurd h hfS
        obtain ⟨v, hv⟩ := fetchFails_false _ hfS2
        subst hv
        have hfR : fetchFails evReadings = true := by
          simpa [fetchFails] using hor
        obtain ⟨m, hme, hne⟩ := fetchHeartRateReadings_fail_error evReadings
          (setError none (setLoading true ⟨true, s⟩)) hfR hmR rfl
        refine ⟨m, ?_, hne⟩
        rw [setLoading_error, fetchHeartRateStats_success_error]
        exact hme

/-- Witness for claim C3: a cycle whose stats fetch answers with a non-ok
status while the readings fetch succeeds leaves the stats slice at its
initial value and ends with a non-empty error message. -/
theorem claim_C3_witness :
    (fetchData (.response false (.ok .jnull)) (.response true (.ok (.jarr []))) true
      ⟨true, initialState "12:00:00"⟩).state.stats = (initialState "12:00:00").stats ∧
    ∃ m, (fetchData (.response false (.ok .jnull)) (.response true (.ok (.jarr []))) true
      ⟨true, initialState "12:00:00"⟩).state.error = some m ∧ m ≠ "" := by
  have h := claim_C3_failure_isolation (.response false (.ok .jnull))
    (.response true (.ok (.jarr []))) true (initialState "12:00:00")
  exact ⟨h.1 rfl, h.2.2 rfl rfl rfl⟩

/-- Counterexample to claim C5 as stated: the empty JSON object is valid
JSON but does not have the documented stats shape, yet the cycle commits
it to the stats slice and signals no error, because the code never
validates the shape of a successfully parsed body. -/
theorem claim_C5_counterexample :
    isStatsShape (.jobj []) = false ∧
    (fetchData (.response true (.ok (.jobj []))) (.response true (.ok (.jarr []))) true
      ⟨true, initialState "12:00:00"⟩).state.stats = .jobj [] ∧
    JsonVal.jobj [] ≠ (initialState "12:00:00").stats ∧
    (fetchData (.response true (.ok (.jobj []))) (.response true (.ok (.jarr []))) true
      ⟨true, initialState "12:00:00"⟩).state.error = none := by
  refine ⟨rfl, rfl, ?_, rfl⟩
  intro h
  simp [initialState, initialStats] at h

/-- Claim C5 as amended: a call fails exactly when the transport faults,
the status is non-ok, or the body is not valid JSON; in each of those
cases the slice is unchanged and a non-empty error message is signalled.
A body that is valid JSON of the wrong shape is not detected: it is
committed to the slice as received. -/
theorem claim_C5_json_only_validation (ev : FetchEvent) (s : AppState) :
    (fetchFails ev = true → evMsgNonempty ev = true →
      ((fetchHeartRateStats ev ⟨true, s⟩).state.stats = s.stats ∧
        ∃ m, (fetchHeartRateStats ev ⟨true, s⟩).state.error = some m ∧ m ≠ "") ∧
      ((fetchHeartRateReadings ev ⟨true, s⟩).state.readings = s.readings ∧
        ∃ m, (fetchHeartRateReadings ev ⟨true, s⟩).state.error = some m ∧ m ≠ "")) ∧
    (∀ v : JsonVal,
      fetchHeartRateStats (.response true (.ok v)) ⟨true, s⟩ = ⟨true, { s with stats := v }⟩ ∧
      fetchHeartRateReadings (.response true (.ok v)) ⟨true, s⟩ = ⟨true, { s with readings := v }⟩) := by
  constructor
  · intro hf hm
    exact ⟨⟨fetchHeartRateStats_fail_stats ev _ hf, fetchHeartRateStats_fail_error ev _ hf hm rfl⟩,
           ⟨fetchHeartRateReadings_fail_readings ev _ hf, fetchHeartRateReadings_fail_error ev _ hf hm rfl⟩⟩
  · intro v
    exact ⟨rfl, rfl⟩

/-- Witness for the amended claim C5: a response whose body is not valid
JSON leaves the stats slice untouched and produces a non-empty error. -/
theorem claim_C5_witness :
    (fetchHeartRateStats (.response true (.error none)) ⟨true, initialState "12:00:00"⟩).state.stats
      = (initialState "12:00:00").stats ∧
    ∃ m, (fetchHeartRateStats (.response true (.error none))
      ⟨true, initialState "12:00:00"⟩).state.error = some m ∧ m ≠ "" := by
  have h := claim_C5_json_only_validation (.response true (.error none)) (initialState "12:00:00")
  exact ⟨(h.1 rfl rfl).1.1, (h.1 rfl rfl).1.2⟩

end SINMAM
